import Mathlib

/-!
Shallow embedding of the ABCD-detector assessment pipeline (`analyse.py`,
`main.py`) and proofs about its orchestration logic.

External collaborators (creative provider, annotation generator, trimmer,
feature-evaluation service, reporting, cleanup) are modelled as functions in
an environment record that thread an abstract world state `ω`; every call the
orchestrator makes to a collaborator is additionally recorded as an `Event`
in a trace, so that claims about which collaborators run, and in which order,
are statements about the trace.
-/

namespace ABCD

/-- The provider-type enum of `models.py` (not under the sources; the two
variants and their names are fixed by their uses in `analyse.py`). -/
inductive CreativeProviderType where
  | GCS
  | YOUTUBE
  deriving DecidableEq

/-- The feature-category enum of `models.py`, as used in `analyse.py`. -/
inductive VideoFeatureCategory where
  | LONG_FORM_ABCD
  | SHORTS
  deriving DecidableEq

/-- Modelled from the spec: an evaluated-feature record produced by the
feature-evaluation service (`models.py` is not among the sources); the
orchestrator never inspects it, so it is an opaque wrapper. -/
structure EvaluatedFeature where
  payload : String
  deriving DecidableEq

/-- The `Configuration` value object (its module is not among the sources;
fields are those the spec's data model lists and `analyse.py` reads).
`video_uris` is `Option (List String)` because the HTTP entry may pass
`None` when the body omits `video_url`. -/
structure Configuration where
  creative_provider_type : CreativeProviderType
  video_uris : Option (List String)
  brand_name : String
  brand_variations : List String
  branded_products : List String
  branded_products_categories : List String
  branded_call_to_actions : List String
  use_annotations : Bool
  run_long_form_abcd : Bool
  run_shorts : Bool
  bq_table_name : Option String
  deriving DecidableEq

/-- The `models.VideoAssessment` record as constructed in
`execute_abcd_assessment_for_videos`. -/
structure VideoAssessment where
  brand_name : String
  video_uri : String
  long_form_abcd_evaluated_features : List EvaluatedFeature
  shorts_evaluated_features : List EvaluatedFeature
  config : Configuration
  deriving DecidableEq

/-- Boolean prefix test on character lists. -/
def charsStartWith : List Char → List Char → Bool
  | [], _ => true
  | _ :: _, [] => false
  | a :: as, b :: bs => a == b && charsStartWith as bs

/-- Boolean substring-containment test on character lists. -/
def charsContain (pat : List Char) : List Char → Bool
  | [] => charsStartWith pat []
  | b :: rest => charsStartWith pat (b :: rest) || charsContain pat rest

/-- Python's `pat in s` on strings: substring containment. -/
def pyIn (pat s : String) : Bool :=
  charsContain pat.data s.data

/-- Python's `s.startswith(pat)`: used only to state the spec's reading of
the locator check ("uses the scheme as a prefix"). -/
def pyStartsWith (pat s : String) : Bool :=
  charsStartWith pat.data s.data

/-- Truthiness of `config.video_uris` in `if config.video_uris:`:
`None` and the empty list are falsy. -/
def pyTruthy : Option (List String) → Bool
  | none => false
  | some l => !l.isEmpty

/-- Observable events of one orchestrator run, in program order: log lines,
collaborator invocations, and assessment construction. -/
inductive Event where
  | errorProviderMismatch (video_uri : String)
  | logProcessing (video_uri : String)
  | generateVideoAnn (video_uri : String)
  | trimVideo (video_uri : String)
  | evaluateFeatures (video_uri : String) (category : VideoFeatureCategory)
  | buildAssessment (assessment : VideoAssessment)
  | printAbcdAssessment (brand_name video_uri : String)
      (features : List EvaluatedFeature)
  | logNoFeatures (category : VideoFeatureCategory)
  | removeLocalVideoFiles
  deriving DecidableEq

/-- The external collaborators of `execute_abcd_assessment_for_videos`,
threading an abstract world state `ω` (their Python counterparts are
side-effecting; the side-effecting ones return no value the orchestrator
consumes). -/
structure Env (ω : Type) where
  get_creative_uris : Configuration → ω → List String × ω
  generate_video_ann : Configuration → String → ω → ω
  trim_video : Configuration → String → ω → ω
  evaluate_features :
    Configuration → String → VideoFeatureCategory → ω → List EvaluatedFeature × ω
  print_abcd_assessment : String → String → List EvaluatedFeature → ω → ω
  remove_local_video_files : ω → ω

/-- The loop body of `execute_abcd_assessment_for_videos` for one video that
has passed the provider/locator consistency check (`analyse.py` lines
72-146): conditional annotation generation and trimming, conditional
per-track evaluation, assessment construction, reporting, and cleanup. -/
def processVideo {ω : Type} (env : Env ω) (config : Configuration)
    (video_uri : String) (w : ω) : List Event × VideoAssessment × ω :=
  let doAnn : Bool :=
    config.use_annotations
      && decide (config.creative_provider_type = CreativeProviderType.GCS)
  let w1 := if doAnn then env.generate_video_ann config video_uri w else w
  let doTrim : Bool :=
    config.run_long_form_abcd
      && decide (config.creative_provider_type = CreativeProviderType.GCS)
  let w2 := if doTrim then env.trim_video config video_uri w1 else w1
  let longRes :=
    if config.run_long_form_abcd then
      env.evaluate_features config video_uri VideoFeatureCategory.LONG_FORM_ABCD w2
    else ([], w2)
  let long_form_abcd_evaluated_features := longRes.1
  let w3 := longRes.2
  let shortsRes :=
    if config.run_shorts then
      env.evaluate_features config video_uri VideoFeatureCategory.SHORTS w3
    else ([], w3)
  let shorts_evaluated_features := shortsRes.1
  let w4 := shortsRes.2
  let video_assessment : VideoAssessment :=
    { brand_name := config.brand_name
      video_uri := video_uri
      long_form_abcd_evaluated_features := long_form_abcd_evaluated_features
      shorts_evaluated_features := shorts_evaluated_features
      config := config }
  let w5 :=
    if long_form_abcd_evaluated_features.length > 0 then
      env.print_abcd_assessment video_assessment.brand_name
        video_assessment.video_uri long_form_abcd_evaluated_features w4
    else w4
  let w6 :=
    if shorts_evaluated_features.length > 0 then
      env.print_abcd_assessment video_assessment.brand_name
        video_assessment.video_uri shorts_evaluated_features w5
    else w5
  let w7 := env.remove_local_video_files w6
  let events : List Event :=
    [Event.logProcessing video_uri]
      ++ (if doAnn then [Event.generateVideoAnn video_uri] else [])
      ++ (if doTrim then [Event.trimVideo video_uri] else [])
      ++ (if config.run_long_form_abcd then
            [Event.evaluateFeatures video_uri VideoFeatureCategory.LONG_FORM_ABCD]
          else [])
      ++ (if config.run_shorts then
            [Event.evaluateFeatures video_uri VideoFeatureCategory.SHORTS]
          else [])
      ++ [Event.buildAssessment video_assessment]
      ++ (if long_form_abcd_evaluated_features.length > 0 then
            [Event.printAbcdAssessment config.brand_name video_uri
              long_form_abcd_evaluated_features]
          else [Event.logNoFeatures VideoFeatureCategory.LONG_FORM_ABCD])
      ++ (if shorts_evaluated_features.length > 0 then
            [Event.printAbcdAssessment config.brand_name video_uri
              shorts_evaluated_features]
          else [Event.logNoFeatures VideoFeatureCategory.SHORTS])
      ++ [Event.removeLocalVideoFiles]
  (events, video_assessment, w7)

/-- The `for video_uri in video_uris` loop of
`execute_abcd_assessment_for_videos` (`analyse.py` lines 49-146): the two
provider/locator consistency checks each log an error and `break`; a passing
video runs the loop body and the loop continues. -/
def assessLoop {ω : Type} (env : Env ω) (config : Configuration) :
    List String → ω → List Event × List VideoAssessment × ω
  | [], w => ([], [], w)
  | video_uri :: rest, w =>
    if config.creative_provider_type = CreativeProviderType.GCS
        ∧ ¬ (pyIn "gs://" video_uri = true) then
      ([Event.errorProviderMismatch video_uri], [], w)
    else if config.creative_provider_type = CreativeProviderType.YOUTUBE
        ∧ ¬ (pyIn "https://www.youtube.com" video_uri = true) then
      ([Event.errorProviderMismatch video_uri], [], w)
    else
      let p := processVideo env config video_uri w
      let r := assessLoop env config rest p.2.2
      (p.1 ++ r.1, p.2.1 :: r.2.1, r.2.2)

/-- `execute_abcd_assessment_for_videos(config)`: resolve the video locators
through the creative provider, then run the per-video loop. -/
def execute_abcd_assessment_for_videos {ω : Type} (env : Env ω)
    (config : Configuration) (w : ω) : List Event × List VideoAssessment × ω :=
  let r := env.get_creative_uris config w
  assessLoop env config r.1 r.2

/-- The combined provider/locator mismatch condition of the two `break`
guards in the loop. -/
def provider_uri_mismatch (config : Configuration) (video_uri : String) : Bool :=
  (decide (config.creative_provider_type = CreativeProviderType.GCS)
      && !(pyIn "gs://" video_uri))
    || (decide (config.creative_provider_type = CreativeProviderType.YOUTUBE)
      && !(pyIn "https://www.youtube.com" video_uri))

/-- Modelled from the spec: `utils.invalid_brand_metadata` is not among the
sources; per the spec contract it "returns true iff no brand-identifying
fields are populated". -/
def invalid_brand_metadata (config : Configuration) : Bool :=
  decide (config.brand_name = "")
    && config.brand_variations.isEmpty
    && config.branded_products.isEmpty
    && config.branded_products_categories.isEmpty
    && config.branded_call_to_actions.isEmpty

/-- Message and traceback text of a Python exception. `traceLast` is the
final line Python's `traceback.print_exc` writes, which repeats the
exception type and message; `traceFrames` is the stack-frame text before
it. -/
structure ExnInfo where
  message : String
  traceFrames : String

/-- The final line of a printed traceback: the exception type and message. -/
def ExnInfo.traceLast (e : ExnInfo) : String :=
  "Exception: " ++ e.message

/-- Outcome of the `execute_abcd_assessment_for_videos(config)` call as seen
by the `analyse` wrapper: either a normal return, or an escaping exception;
in both cases with the stdout/stderr text the call produced first. -/
inductive OrchOutcome where
  | ok (output : List String)
  | raised (output : List String) (exn : ExnInfo)

/-- The dictionary `analyse` returns: `error` is `some` exactly when the
Python dict carries an `"error"` key; `logs` is the captured buffer contents
as the list of writes, in order. -/
structure RunResult where
  error : Option String
  logs : List String
  deriving DecidableEq

/-- Full observable outcome of one `analyse` call: the returned dictionary
plus whatever was written to the real (uncaptured) stdout. The
`print("ERROR:", ex)` in the `except` clause runs after the
`redirect_stdout` context has exited, so it reaches the real stdout, not
the buffer. -/
structure AnalyseOutcome where
  result : RunResult
  real_stdout : List String
  deriving DecidableEq

/-- The timing line `print(f"ABCD assessment took ... mins.")`; the elapsed
number is wall-clock time, abstracted to a fixed placeholder. -/
def tookLine : String :=
  "ABCD assessment took [elapsed] mins.\n"

/-- The `analyse(...)` wrapper (`analyse.py` lines 150-199). It is stated
over an abstract argument type `A` and a builder `build : A → Configuration`
standing for `utils.build_custom_config` (not among the sources), and over
`orch`, the behaviour of `execute_abcd_assessment_for_videos` together with
every collaborator it calls, the only step of the body that can raise.
Inside the capture it: builds the configuration; returns
`{error, logs}` when brand metadata is invalid; prints the start banner;
runs the orchestrator when `video_uris` is truthy, else prints the
no-videos line; prints the timing line. An exception escaping the
orchestrator ends the capture, is printed to the real stdout, has its
traceback written into the buffer, and the wrapper still returns `{logs}`. -/
def analyse {A : Type} (build : A → Configuration) (orch : Configuration → OrchOutcome)
    (a : A) : AnalyseOutcome :=
  let config := build a
  if invalid_brand_metadata config then
    { result :=
        { error := some "Invalid brand metadata"
          logs := ["Invalid brand metadata. Please provide brand details.\n"] }
      real_stdout := [] }
  else
    let started := ["Starting ABCD assessment...\n"]
    if pyTruthy config.video_uris then
      match orch config with
      | OrchOutcome.ok output =>
          { result :=
              { error := none
                logs := started ++ output
                    ++ ["Finished ABCD assessment.\n", tookLine] }
            real_stdout := [] }
      | OrchOutcome.raised output exn =>
          { result :=
              { error := none
                logs := started ++ output
                    ++ [exn.traceFrames, exn.traceLast] }
            real_stdout := ["ERROR: " ++ exn.message] }
    else
      { result :=
          { error := none
            logs := started ++ ["There are no videos to process.\n", tookLine] }
        real_stdout := [] }

/-! Concrete sample configurations and collaborator environments, used to
evaluate the definitions on closed inputs. -/

/-- A GCS configuration with populated brand metadata, annotations and the
long-form track enabled. -/
def cfgGCS : Configuration :=
  { creative_provider_type := CreativeProviderType.GCS
    video_uris := some ["gs://bucket/video1.mp4"]
    brand_name := "Brand"
    brand_variations := ["Brand Inc"]
    branded_products := []
    branded_products_categories := []
    branded_call_to_actions := []
    use_annotations := true
    run_long_form_abcd := true
    run_shorts := false
    bq_table_name := none }

/-- A GCS configuration with every preprocessing and evaluation flag off. -/
def cfgPlain : Configuration :=
  { cfgGCS with use_annotations := false, run_long_form_abcd := false }

/-- A YouTube configuration. -/
def cfgYT : Configuration :=
  { cfgGCS with creative_provider_type := CreativeProviderType.YOUTUBE
                video_uris := some ["https://www.youtube.com/watch?v=1"] }

/-- A configuration whose `run_long_form_abcd` is off and `run_shorts` on. -/
def cfgShorts : Configuration :=
  { cfgGCS with use_annotations := false, run_long_form_abcd := false,
                run_shorts := true }

/-- A configuration with entirely empty brand metadata. -/
def cfgNoBrand : Configuration :=
  { cfgGCS with brand_name := "", brand_variations := [] }

/-- A configuration with no videos (`video_url` omitted from the request). -/
def cfgNoVideos : Configuration :=
  { cfgGCS with video_uris := none }

/-- A stub collaborator environment over a unit world: the provider returns
the configured locators and evaluation returns two fixed features. -/
def envU : Env Unit :=
  { get_creative_uris := fun config _ => (config.video_uris.getD [], ())
    generate_video_ann := fun _ _ _ => ()
    trim_video := fun _ _ _ => ()
    evaluate_features := fun _ _ _ _ =>
      ([EvaluatedFeature.mk "f1", EvaluatedFeature.mk "f2"], ())
    print_abcd_assessment := fun _ _ _ _ => ()
    remove_local_video_files := fun _ => () }

/-- The same stub collaborators over a counting world: every call bumps the
counter, so the two runs of the determinism claim start and end in different
states. -/
def envN : Env Nat :=
  { get_creative_uris := fun config n => (config.video_uris.getD [], n + 1)
    generate_video_ann := fun _ _ n => n + 1
    trim_video := fun _ _ n => n + 1
    evaluate_features := fun _ _ _ n =>
      ([EvaluatedFeature.mk "f1", EvaluatedFeature.mk "f2"], n + 1)
    print_abcd_assessment := fun _ _ _ n => n + 1
    remove_local_video_files := fun n => n + 1 }

/-- A provider stub returning a batch whose second locator mismatches. -/
def envMid : Env Unit :=
  { envU with get_creative_uris := fun _ _ =>
      (["gs://a.mp4", "bad.mp4", "gs://c.mp4"], ()) }

/-- A provider stub returning one locator that contains `gs://` without
starting with it. -/
def envInfix : Env Unit :=
  { envU with get_creative_uris := fun _ _ => (["x.gs://v.mp4"], ()) }

/-- A provider stub returning a mismatching locator followed by a valid
GCS locator. -/
def envAnn : Env Unit :=
  { envU with get_creative_uris := fun _ _ => (["bad.mp4", "gs://good.mp4"], ()) }

/-- The scheme/domain string the source's check looks for, per provider. -/
def expected_scheme_sub : CreativeProviderType → String
  | CreativeProviderType.GCS => "gs://"
  | CreativeProviderType.YOUTUBE => "https://www.youtube.com"

/-- The locator check as claim C2 words it: the locator must *start with*
the provider's scheme string. Stated only to compare with the source's
substring-containment check. -/
def locator_matches_per_claim (t : CreativeProviderType) (uri : String) : Bool :=
  pyStartsWith (expected_scheme_sub t) uri

/-- The assessment one loop iteration builds, described directly from the
configuration and the evaluation stub (meaningful when the stub's output
does not depend on the world state). -/
def assessmentOf {ω : Type} (env : Env ω) (config : Configuration)
    (video_uri : String) (w0 : ω) : VideoAssessment :=
  { brand_name := config.brand_name
    video_uri := video_uri
    long_form_abcd_evaluated_features :=
      if config.run_long_form_abcd then
        (env.evaluate_features config video_uri
          VideoFeatureCategory.LONG_FORM_ABCD w0).1
      else []
    shorts_evaluated_features :=
      if config.run_shorts then
        (env.evaluate_features config video_uri VideoFeatureCategory.SHORTS w0).1
      else []
    config := config }

/-- Constant configuration builder, standing for a
`utils.build_custom_config` call whose result is known. -/
def buildK (config : Configuration) : Unit → Configuration :=
  fun _ => config

/-- An orchestrator stub that returns normally with fixed output. -/
def orchOk (output : List String) : Configuration → OrchOutcome :=
  fun _ => OrchOutcome.ok output

/-- An orchestrator stub that raises after producing fixed output. -/
def orchRaise (output : List String) (exn : ExnInfo) :
    Configuration → OrchOutcome :=
  fun _ => OrchOutcome.raised output exn

/-- A sample exception. -/
def exnBoom : ExnInfo :=
  { message := "boom", traceFrames := "Traceback (most recent call last): ..." }

/-! Helper lemmas about the embedding. -/

/-- Membership in a conditional singleton list. -/
theorem mem_ite_singleton {α : Type} {c : Prop} [Decidable c] (a b : α) :
    (a ∈ (if c then [b] else [])) ↔ (c ∧ a = b) := by
  split <;> simp_all

/-- Membership in a conditional choice of two singleton lists. -/
theorem mem_ite_singleton_pair {α : Type} {c : Prop} [Decidable c] (a b b' : α) :
    (a ∈ (if c then [b] else [b'])) ↔ ((c ∧ a = b) ∨ (¬ c ∧ a = b')) := by
  split <;> simp_all

/-- Every list is a prefix of itself. -/
theorem charsStartWith_refl (l : List Char) : charsStartWith l l = true := by
  induction l with
  | nil => rfl
  | cons a as ih => simp [charsStartWith, ih]

/-- A list occurs in any list it is a suffix of. -/
theorem charsContain_append_left (p t : List Char) :
    charsContain p (t ++ p) = true := by
  induction t with
  | nil =>
    cases p with
    | nil => rfl
    | cons a as => simp [charsContain, charsStartWith_refl]
  | cons b bs ih => simp [charsContain, ih]

/-- A string occurs in any string it is a suffix of. -/
theorem pyIn_append_left (s t : String) : pyIn s (t ++ s) = true := by
  have h : (t ++ s).data = t.data ++ s.data := rfl
  simp [pyIn, h, charsContain_append_left]

/-- The per-video loop body ends in the cleanup call. -/
theorem processVideo_events_getLast {ω : Type} (env : Env ω)
    (config : Configuration) (video_uri : String) (w : ω) :
    (processVideo env config video_uri w).1.getLast?
      = some Event.removeLocalVideoFiles := by
  simp only [processVideo]
  exact List.getLast?_concat _

/-- The per-video loop body records the cleanup call. -/
theorem processVideo_events_cleanup_mem {ω : Type} (env : Env ω)
    (config : Configuration) (video_uri : String) (w : ω) :
    Event.removeLocalVideoFiles ∈ (processVideo env config video_uri w).1 := by
  simp [processVideo]

/-- The loop iteration for a mismatching locator records only the error and
leaves the world untouched. -/
theorem assessLoop_cons_mismatch {ω : Type} (env : Env ω)
    (config : Configuration) (u : String) (rest : List String) (w : ω)
    (h : provider_uri_mismatch config u = true) :
    assessLoop env config (u :: rest) w
      = ([Event.errorProviderMismatch u], [], w) := by
  simp only [provider_uri_mismatch, Bool.or_eq_true, Bool.and_eq_true,
    decide_eq_true_eq, Bool.not_eq_true'] at h
  rcases h with ⟨h1, h2⟩ | ⟨h1, h2⟩ <;>
    simp [assessLoop, h1, h2]

/-- The loop iteration for a locator that passes the check runs the body and
continues with the rest of the batch. -/
theorem assessLoop_cons_ok {ω : Type} (env : Env ω) (config : Configuration)
    (u : String) (rest : List String) (w : ω)
    (h : provider_uri_mismatch config u = false) :
    assessLoop env config (u :: rest) w
      = ((processVideo env config u w).1
            ++ (assessLoop env config rest (processVideo env config u w).2.2).1,
          (processVideo env config u w).2.1
            :: (assessLoop env config rest (processVideo env config u w).2.2).2.1,
          (assessLoop env config rest (processVideo env config u w).2.2).2.2) := by
  simp only [provider_uri_mismatch, Bool.or_eq_false_iff, Bool.and_eq_false_iff,
    decide_eq_false_iff_not, Bool.not_eq_false] at h
  cases htype : config.creative_provider_type <;>
    rcases h with ⟨h1, h2⟩ <;> simp_all [assessLoop]

/-- When every locator of a first segment passes the check, the loop on the
concatenation runs the first segment and then the second, threading the
trace, assessments, and world through. -/
theorem assessLoop_append_of_ok {ω : Type} (env : Env ω)
    (config : Configuration) (pre l : List String)
    (hpre : ∀ v ∈ pre, provider_uri_mismatch config v = false) :
    ∀ w : ω,
      assessLoop env config (pre ++ l) w
        = ((assessLoop env config pre w).1
              ++ (assessLoop env config l (assessLoop env config pre w).2.2).1,
            (assessLoop env config pre w).2.1
              ++ (assessLoop env config l (assessLoop env config pre w).2.2).2.1,
            (assessLoop env config l (assessLoop env config pre w).2.2).2.2) := by
  induction pre with
  | nil => intro w; simp [assessLoop]
  | cons u rest ih =>
    intro w
    have hu : provider_uri_mismatch config u = false := hpre u (by simp)
    have hrest : ∀ v ∈ rest, provider_uri_mismatch config v = false :=
      fun v hv => hpre v (by simp [hv])
    rw [List.cons_append, assessLoop_cons_ok env config u (rest ++ l) w hu,
      assessLoop_cons_ok env config u rest w hu, ih hrest]
    simp [List.append_assoc]

/-- The assessment built by the loop body carries the processed locator. -/
theorem processVideo_uri {ω : Type} (env : Env ω) (config : Configuration)
    (video_uri : String) (w : ω) :
    (processVideo env config video_uri w).2.1.video_uri = video_uri := by
  simp [processVideo]

/-- The loop body calls the annotation generator exactly when annotations
are enabled and the provider is GCS. -/
theorem mem_processVideo_ann_iff {ω : Type} (env : Env ω)
    (config : Configuration) (video_uri u : String) (w : ω) :
    Event.generateVideoAnn u ∈ (processVideo env config video_uri w).1
      ↔ (u = video_uri ∧ config.use_annotations = true
          ∧ config.creative_provider_type = CreativeProviderType.GCS) := by
  cases hA : config.use_annotations <;>
    cases hP : config.creative_provider_type <;>
      simp [processVideo, hA, hP, mem_ite_singleton, mem_ite_singleton_pair]

/-- The loop body calls the trimmer exactly when the long-form track is
enabled and the provider is GCS. -/
theorem mem_processVideo_trim_iff {ω : Type} (env : Env ω)
    (config : Configuration) (video_uri u : String) (w : ω) :
    Event.trimVideo u ∈ (processVideo env config video_uri w).1
      ↔ (u = video_uri ∧ config.run_long_form_abcd = true
          ∧ config.creative_provider_type = CreativeProviderType.GCS) := by
  cases hL : config.run_long_form_abcd <;>
    cases hP : config.creative_provider_type <;>
      simp [processVideo, hL, hP, mem_ite_singleton, mem_ite_singleton_pair]

/-- Under a YouTube provider, no annotation-generation and no trimming call
appears anywhere in the loop's trace. -/
theorem assessLoop_youtube_no_preprocessing {ω : Type} (env : Env ω)
    (config : Configuration)
    (h : config.creative_provider_type = CreativeProviderType.YOUTUBE)
    (uris : List String) (u : String) :
    ∀ w : ω,
      Event.generateVideoAnn u ∉ (assessLoop env config uris w).1
      ∧ Event.trimVideo u ∉ (assessLoop env config uris w).1 := by
  induction uris with
  | nil => intro w; simp [assessLoop]
  | cons v rest ih =>
    intro w
    by_cases hv : provider_uri_mismatch config v = true
    · rw [assessLoop_cons_mismatch env config v rest w hv]
      simp
    · have hv' : provider_uri_mismatch config v = false := by
        simpa using hv
      rw [assessLoop_cons_ok env config v rest w hv']
      simp only [List.mem_append]
      push_neg
      refine ⟨⟨?_, ?_⟩, ?_, ?_⟩
      · intro hmem
        have := (mem_processVideo_ann_iff env config v u w).mp hmem
        rw [h] at this
        exact absurd this.2.2 (by simp)
      · exact (ih (processVideo env config v w).2.2).1
      · intro hmem
        have := (mem_processVideo_trim_iff env config v u w).mp hmem
        rw [h] at this
        exact absurd this.2.2 (by simp)
      · exact (ih (processVideo env config v w).2.2).2

/-- With a state-independent evaluation stub, the assessment the loop body
builds is described directly by `assessmentOf` at any world. -/
theorem processVideo_assessment_eq {ω : Type} (env : Env ω)
    (config : Configuration) (video_uri : String) (w w0 : ω)
    (hdet : ∀ c u cat wa wb,
      (env.evaluate_features c u cat wa).1 = (env.evaluate_features c u cat wb).1) :
    (processVideo env config video_uri w).2.1
      = assessmentOf env config video_uri w0 := by
  cases hL : config.run_long_form_abcd <;> cases hS : config.run_shorts <;>
    simp_all [processVideo, assessmentOf] <;>
    first
      | apply hdet
      | (constructor <;> apply hdet)

/-- Every assessment the loop emits is described by `assessmentOf` at its
own locator, when the evaluation stub is state-independent. -/
theorem assessLoop_mem_assessment {ω : Type} (env : Env ω)
    (config : Configuration) (w0 : ω)
    (hdet : ∀ c u cat wa wb,
      (env.evaluate_features c u cat wa).1 = (env.evaluate_features c u cat wb).1)
    (uris : List String) :
    ∀ (w : ω) (a : VideoAssessment),
      a ∈ (assessLoop env config uris w).2.1
      → a = assessmentOf env config a.video_uri w0 := by
  induction uris with
  | nil => intro w a ha; simp [assessLoop] at ha
  | cons u rest ih =>
    intro w a ha
    by_cases hu : provider_uri_mismatch config u = true
    · rw [assessLoop_cons_mismatch env config u rest w hu] at ha
      simp at ha
    · have hu' : provider_uri_mismatch config u = false := by simpa using hu
      rw [assessLoop_cons_ok env config u rest w hu'] at ha
      rcases List.mem_cons.mp ha with h | h
      · subst h
        rw [processVideo_uri]
        exact processVideo_assessment_eq env config u w w0 hdet
      · exact ih _ a h

/-- Two environments whose evaluation stubs are state-independent and agree
build the same assessment in the loop body. -/
theorem assessmentOf_cong {ω₁ ω₂ : Type} (env₁ : Env ω₁) (env₂ : Env ω₂)
    (config : Configuration) (w₁ : ω₁) (w₂ : ω₂)
    (heval : ∀ c u cat (wa : ω₁) (wb : ω₂),
      (env₁.evaluate_features c u cat wa).1 = (env₂.evaluate_features c u cat wb).1)
    (v : String) :
    assessmentOf env₁ config v w₁ = assessmentOf env₂ config v w₂ := by
  cases hL : config.run_long_form_abcd <;> cases hS : config.run_shorts <;>
    simp_all [assessmentOf] <;>
    first
      | apply heval
      | (constructor <;> apply heval)

/-- Two runs of the loop over the same locators, with deterministic and
agreeing resolution and evaluation stubs, emit the same assessments. -/
theorem assessLoop_assessments_cong {ω₁ ω₂ : Type} (env₁ : Env ω₁)
    (env₂ : Env ω₂) (config : Configuration)
    (heval : ∀ c u cat (wa : ω₁) (wb : ω₂),
      (env₁.evaluate_features c u cat wa).1 = (env₂.evaluate_features c u cat wb).1)
    (uris : List String) :
    ∀ (w₁ : ω₁) (w₂ : ω₂),
      (assessLoop env₁ config uris w₁).2.1 = (assessLoop env₂ config uris w₂).2.1 := by
  induction uris with
  | nil => intro w₁ w₂; simp [assessLoop]
  | cons u rest ih =>
    intro w₁ w₂
    by_cases hu : provider_uri_mismatch config u = true
    · rw [assessLoop_cons_mismatch env₁ config u rest w₁ hu,
        assessLoop_cons_mismatch env₂ config u rest w₂ hu]
    · have hu' : provider_uri_mismatch config u = false := by simpa using hu
      have hdet₁ : ∀ c v cat wa wb,
          (env₁.evaluate_features c v cat wa).1
            = (env₁.evaluate_features c v cat wb).1 :=
        fun c v cat wa wb =>
          (heval c v cat wa w₂).trans (heval c v cat wb w₂).symm
      have hdet₂ : ∀ c v cat wa wb,
          (env₂.evaluate_features c v cat wa).1
            = (env₂.evaluate_features c v cat wb).1 :=
        fun c v cat wa wb =>
          ((heval c v cat w₁ wa).symm.trans (heval c v cat w₁ wb))
      have hhead : (processVideo env₁ config u w₁).2.1
          = (processVideo env₂ config u w₂).2.1 := by
        rw [processVideo_assessment_eq env₁ config u w₁ w₁ hdet₁,
          processVideo_assessment_eq env₂ config u w₂ w₂ hdet₂]
        exact assessmentOf_cong env₁ env₂ config w₁ w₂ heval u
      rw [assessLoop_cons_ok env₁ config u rest w₁ hu',
        assessLoop_cons_ok env₂ config u rest w₂ hu']
      exact congrArg₂ List.cons hhead (ih _ _)

/-- The check of the loop's two `break` guards fails exactly when the
provider's scheme string does not occur in the locator. -/
theorem provider_uri_mismatch_iff (config : Configuration) (uri : String) :
    provider_uri_mismatch config uri = false
      ↔ pyIn (expected_scheme_sub config.creative_provider_type) uri = true := by
  cases h : config.creative_provider_type <;>
    simp [provider_uri_mismatch, expected_scheme_sub, h]

/-! The claims. -/

/-- Claim C1: if the locator at index `i` fails the provider/locator
consistency check (and the earlier locators pass it), the orchestrator
records the mismatch error as its last trace event and terminates the
whole loop: the run is identical to the run on the batch truncated right
after the offending locator, so no later video undergoes any preprocessing,
evaluation, assessment construction, reporting, or cleanup. -/
theorem C1_mismatch_terminates_whole_loop {ω : Type} (env : Env ω)
    (config : Configuration) (w : ω) (pre post : List String) (u : String)
    (hres : (env.get_creative_uris config w).1 = pre ++ u :: post)
    (hpre : ∀ v ∈ pre, provider_uri_mismatch config v = false)
    (hu : provider_uri_mismatch config u = true) :
    execute_abcd_assessment_for_videos env config w
      = assessLoop env config (pre ++ [u]) (env.get_creative_uris config w).2
    ∧ (execute_abcd_assessment_for_videos env config w).1.getLast?
      = some (Event.errorProviderMismatch u) := by
  have h1 : execute_abcd_assessment_for_videos env config w
      = assessLoop env config (pre ++ u :: post)
          (env.get_creative_uris config w).2 := by
    simp only [execute_abcd_assessment_for_videos]
    rw [hres]
  have hA := assessLoop_append_of_ok env config pre (u :: post) hpre
    (env.get_creative_uris config w).2
  have hA' := assessLoop_append_of_ok env config pre [u] hpre
    (env.get_creative_uris config w).2
  have hm := assessLoop_cons_mismatch env config u post
    (assessLoop env config pre (env.get_creative_uris config w).2).2.2 hu
  have hm' := assessLoop_cons_mismatch env config u []
    (assessLoop env config pre (env.get_creative_uris config w).2).2.2 hu
  constructor
  · rw [h1, hA, hm, hA', hm']
  · rw [h1, hA, hm]
    exact List.getLast?_concat _

/-- Claim C1 witness: a concrete GCS batch whose second locator mismatches
is truncated there, and the trace ends with the mismatch error. -/
theorem C1_witness :
    (∀ v ∈ ["gs://a.mp4"], provider_uri_mismatch cfgGCS v = false)
    ∧ provider_uri_mismatch cfgGCS "bad.mp4" = true
    ∧ (execute_abcd_assessment_for_videos envMid cfgGCS ()).1.getLast?
      = some (Event.errorProviderMismatch "bad.mp4") :=
  ⟨by decide, by decide,
    (C1_mismatch_terminates_whole_loop envMid cfgGCS () ["gs://a.mp4"]
      ["gs://c.mp4"] "bad.mp4" (by decide) (by decide) (by decide)).2⟩

/-- Claim C2 fails as stated: the source's check is substring containment
(Python's `in`), not a prefix test. The locator `"x.gs://v.mp4"` does not
start with `"gs://"`, yet under a GCS provider the check passes it and the
video is fully processed (an assessment is built for it). -/
theorem C2_counterexample :
    locator_matches_per_claim CreativeProviderType.GCS "x.gs://v.mp4" = false
    ∧ (execute_abcd_assessment_for_videos envInfix cfgPlain ()).2.1.map
        VideoAssessment.video_uri = ["x.gs://v.mp4"] := by
  constructor
  · decide
  · decide

/-- Claim C2 (amended): the check passes a locator if and only if the
configured provider's scheme string — `"gs://"` for GCS,
`"https://www.youtube.com"` for YouTube — occurs as a substring of the
locator (Python `in`), not necessarily as a prefix: for a one-video batch,
an assessment is built exactly under that containment condition. -/
theorem C2_amended_substring_check {ω : Type} (env : Env ω)
    (config : Configuration) (uri : String) (w : ω)
    (hres : (env.get_creative_uris config w).1 = [uri]) :
    ((execute_abcd_assessment_for_videos env config w).2.1.map
        VideoAssessment.video_uri = [uri])
      ↔ pyIn (expected_scheme_sub config.creative_provider_type) uri = true := by
  simp only [execute_abcd_assessment_for_videos]
  rw [hres, ← provider_uri_mismatch_iff]
  by_cases hm : provider_uri_mismatch config uri = true
  · rw [assessLoop_cons_mismatch env config uri [] _ hm]
    simp [hm]
  · have hm' : provider_uri_mismatch config uri = false := by simpa using hm
    rw [assessLoop_cons_ok env config uri [] _ hm']
    simp [assessLoop, processVideo_uri, hm']

/-- Claim C2 witness: the amended equivalence evaluated on the concrete
locator that contains `gs://` without starting with it. -/
theorem C2_amended_witness :
    ((execute_abcd_assessment_for_videos envInfix cfgPlain ()).2.1.map
        VideoAssessment.video_uri = ["x.gs://v.mp4"])
      ↔ pyIn (expected_scheme_sub cfgPlain.creative_provider_type)
          "x.gs://v.mp4" = true :=
  C2_amended_substring_check envInfix cfgPlain "x.gs://v.mp4" () rfl

/-- Claim C9: when the provider/locator consistency check fails for the
video the loop has reached, that video receives no processing at all: the
iteration records only the mismatch error — no annotation generation, no
trimming, no evaluation, no assessment construction, no reporting, and no
cleanup occur for it, and the collaborator world state is untouched. -/
theorem C9_offending_video_unprocessed {ω : Type} (env : Env ω)
    (config : Configuration) (u : String) (rest : List String) (w : ω)
    (hu : provider_uri_mismatch config u = true) :
    assessLoop env config (u :: rest) w
      = ([Event.errorProviderMismatch u], [], w) :=
  assessLoop_cons_mismatch env config u rest w hu

/-- Claim C9 witness: the loop at a concrete mismatching GCS locator emits
only the error. -/
theorem C9_witness :
    provider_uri_mismatch cfgGCS "bad.mp4" = true
    ∧ assessLoop envU cfgGCS ["bad.mp4", "gs://ok.mp4"] ()
      = ([Event.errorProviderMismatch "bad.mp4"], [], ()) :=
  ⟨by decide,
    C9_offending_video_unprocessed envU cfgGCS "bad.mp4" ["gs://ok.mp4"] ()
      (by decide)⟩

/-- Claim C5 fails as stated: it quantifies over every video in the batch,
but a mismatch at an earlier index terminates the loop, so a later
cloud-storage video with annotations enabled never receives the annotation
generator — the "if and only if" is violated for it. Concretely, with
annotations enabled under GCS, the batch `["bad.mp4", "gs://good.mp4"]`
yields no annotation call for `"gs://good.mp4"`. -/
theorem C5_counterexample :
    cfgGCS.use_annotations = true
    ∧ cfgGCS.creative_provider_type = CreativeProviderType.GCS
    ∧ (envAnn.get_creative_uris cfgGCS ()).1 = ["bad.mp4", "gs://good.mp4"]
    ∧ Event.generateVideoAnn "gs://good.mp4"
        ∉ (execute_abcd_assessment_for_videos envAnn cfgGCS ()).1 := by
  refine ⟨by decide, by decide, by decide, by decide⟩

/-- Claim C5 (amended): for every video that the loop reaches and that
passes the provider/locator check — i.e. every video whose iteration body
runs — the annotation generator is invoked iff `use_annotations` is enabled
and the provider is cloud-storage, and the trimmer is invoked iff
`run_long_form_abcd` is enabled and the provider is cloud-storage; under a
YouTube provider neither preprocessing call ever appears in the whole run's
trace, regardless of the flags. -/
theorem C5_amended_flag_gating {ω : Type} (env : Env ω)
    (config : Configuration) (video_uri : String) (w : ω) :
    (Event.generateVideoAnn video_uri ∈ (processVideo env config video_uri w).1
      ↔ (config.use_annotations = true
          ∧ config.creative_provider_type = CreativeProviderType.GCS))
    ∧ (Event.trimVideo video_uri ∈ (processVideo env config video_uri w).1
      ↔ (config.run_long_form_abcd = true
          ∧ config.creative_provider_type = CreativeProviderType.GCS))
    ∧ (config.creative_provider_type = CreativeProviderType.YOUTUBE →
        ∀ (uris : List String) (u : String) (w' : ω),
          Event.generateVideoAnn u ∉ (assessLoop env config uris w').1
          ∧ Event.trimVideo u ∉ (assessLoop env config uris w').1) := by
  refine ⟨?_, ?_, ?_⟩
  · rw [mem_processVideo_ann_iff]
    simp
  · rw [mem_processVideo_trim_iff]
    simp
  · intro h uris u w'
    exact assessLoop_youtube_no_preprocessing env config h uris u w'

/-- Claim C5 witness: under a concrete YouTube configuration the trace of a
processed batch contains no annotation-generation call, by the amended
theorem's YouTube clause. -/
theorem C5_amended_witness :
    Event.generateVideoAnn "https://www.youtube.com/watch?v=1"
      ∉ (assessLoop envU cfgYT ["https://www.youtube.com/watch?v=1"] ()).1 :=
  ((C5_amended_flag_gating envU cfgYT "x" ()).2.2 rfl
    ["https://www.youtube.com/watch?v=1"] "https://www.youtube.com/watch?v=1"
    ()).1

/-- Claim C6: with a state-independent evaluation stub, every assessment a
completed iteration constructs carries both track fields: a disabled track
contributes the empty feature sequence (the field is always present on the
record type), and an enabled track contributes exactly the sequence the
feature-evaluation service returns for that category and locator. -/
theorem C6_assessment_always_has_both_tracks {ω : Type} (env : Env ω)
    (config : Configuration) (w w0 : ω) (a : VideoAssessment)
    (hdet : ∀ c u cat wa wb,
      (env.evaluate_features c u cat wa).1 = (env.evaluate_features c u cat wb).1)
    (ha : a ∈ (execute_abcd_assessment_for_videos env config w).2.1) :
    a.long_form_abcd_evaluated_features
        = (if config.run_long_form_abcd then
            (env.evaluate_features config a.video_uri
              VideoFeatureCategory.LONG_FORM_ABCD w0).1
          else [])
    ∧ a.shorts_evaluated_features
        = (if config.run_shorts then
            (env.evaluate_features config a.video_uri
              VideoFeatureCategory.SHORTS w0).1
          else []) := by
  simp only [execute_abcd_assessment_for_videos] at ha
  have h := assessLoop_mem_assessment env config w0 hdet _ _ a ha
  constructor
  · conv_lhs => rw [h]
    rfl
  · conv_lhs => rw [h]
    rfl

/-- Claim C6 witness: with long-form disabled and shorts enabled, the
assessment of a concrete one-video run has an empty long-form sequence and
exactly the stub's shorts sequence. -/
theorem C6_witness :
    ((processVideo envU cfgShorts "gs://bucket/video1.mp4" ()).2.1).long_form_abcd_evaluated_features
        = (if cfgShorts.run_long_form_abcd then
            (envU.evaluate_features cfgShorts
              ((processVideo envU cfgShorts "gs://bucket/video1.mp4" ()).2.1).video_uri
              VideoFeatureCategory.LONG_FORM_ABCD ()).1
          else [])
    ∧ ((processVideo envU cfgShorts "gs://bucket/video1.mp4" ()).2.1).shorts_evaluated_features
        = (if cfgShorts.run_shorts then
            (envU.evaluate_features cfgShorts
              ((processVideo envU cfgShorts "gs://bucket/video1.mp4" ()).2.1).video_uri
              VideoFeatureCategory.SHORTS ()).1
          else []) :=
  C6_assessment_always_has_both_tracks envU cfgShorts () ()
    ((processVideo envU cfgShorts "gs://bucket/video1.mp4" ()).2.1)
    (fun _ _ _ _ _ => rfl) (by decide)

/-- Claim C7: every loop iteration whose body runs (its locator passed the
consistency check) calls the cleanup routine, with no dependence on any
feature flag: the iteration's trace ends with the cleanup event and all of
it precedes every event of the remaining videos. -/
theorem C7_cleanup_every_iteration {ω : Type} (env : Env ω)
    (config : Configuration) (video_uri : String) (rest : List String) (w : ω)
    (h : provider_uri_mismatch config video_uri = false) :
    (assessLoop env config (video_uri :: rest) w).1
      = (processVideo env config video_uri w).1
          ++ (assessLoop env config rest (processVideo env config video_uri w).2.2).1
    ∧ (processVideo env config video_uri w).1.getLast?
      = some Event.removeLocalVideoFiles
    ∧ Event.removeLocalVideoFiles ∈ (processVideo env config video_uri w).1 := by
  refine ⟨?_, processVideo_events_getLast env config video_uri w,
    processVideo_events_cleanup_mem env config video_uri w⟩
  rw [assessLoop_cons_ok env config video_uri rest w h]

/-- Claim C7 witness: the cleanup event closes the concrete iteration of a
valid GCS locator. -/
theorem C7_witness :
    provider_uri_mismatch cfgGCS "gs://bucket/video1.mp4" = false
    ∧ (processVideo envU cfgGCS "gs://bucket/video1.mp4" ()).1.getLast?
      = some Event.removeLocalVideoFiles :=
  ⟨by decide,
    (C7_cleanup_every_iteration envU cfgGCS "gs://bucket/video1.mp4" [] ()
      (by decide)).2.1⟩

/-- Claim C8: two runs of the orchestrator — over possibly different world
types and starting states — with provider resolution and feature evaluation
stubbed deterministically (state-independent and extensionally agreeing)
produce identical Video Assessment records. -/
theorem C8_two_run_determinism {ω₁ ω₂ : Type} (env₁ : Env ω₁) (env₂ : Env ω₂)
    (config : Configuration) (w₁ : ω₁) (w₂ : ω₂)
    (hres : ∀ c (wa : ω₁) (wb : ω₂),
      (env₁.get_creative_uris c wa).1 = (env₂.get_creative_uris c wb).1)
    (heval : ∀ c u cat (wa : ω₁) (wb : ω₂),
      (env₁.evaluate_features c u cat wa).1
        = (env₂.evaluate_features c u cat wb).1) :
    (execute_abcd_assessment_for_videos env₁ config w₁).2.1
      = (execute_abcd_assessment_for_videos env₂ config w₂).2.1 := by
  simp only [execute_abcd_assessment_for_videos]
  rw [hres config w₁ w₂]
  exact assessLoop_assessments_cong env₁ env₂ config heval _ _ _

/-- Claim C8 witness: a run over a counting world and a run over a unit
world, with the same deterministic stub outputs, yield the same assessment
records. -/
theorem C8_witness :
    (execute_abcd_assessment_for_videos envN cfgGCS 0).2.1
      = (execute_abcd_assessment_for_videos envU cfgGCS ()).2.1 :=
  C8_two_run_determinism envN envU cfgGCS 0 ()
    (fun _ _ _ => rfl) (fun _ _ _ _ _ => rfl)

/-- Claim C3: when an exception escapes the orchestrator during a run,
`analyse` catches it and returns a normal dictionary with no `error` key
(only `logs`); the captured buffer receives the full traceback, whose
stack-frame text and final line are among the logs, the final line
containing the exception message as a substring; every output line the run
produced before the exception is also in the logs. (`analyse` is a total
function of the model, so it never raises.) -/
theorem C3_wrapper_contains_exception {A : Type} (build : A → Configuration)
    (orch : Configuration → OrchOutcome) (a : A) (output : List String)
    (exn : ExnInfo)
    (hmeta : invalid_brand_metadata (build a) = false)
    (hvids : pyTruthy (build a).video_uris = true)
    (horch : orch (build a) = OrchOutcome.raised output exn) :
    (analyse build orch a).result.error = none
    ∧ exn.traceFrames ∈ (analyse build orch a).result.logs
    ∧ exn.traceLast ∈ (analyse build orch a).result.logs
    ∧ (∃ l ∈ (analyse build orch a).result.logs, pyIn exn.message l = true)
    ∧ ∀ l ∈ output, l ∈ (analyse build orch a).result.logs := by
  have hres : (analyse build orch a).result
      = { error := none
          logs := ["Starting ABCD assessment...\n"] ++ output
              ++ [exn.traceFrames, exn.traceLast] } := by
    simp [analyse, hmeta, hvids, horch]
  rw [hres]
  refine ⟨rfl, by simp, by simp, ?_, ?_⟩
  · exact ⟨exn.traceLast, by simp, pyIn_append_left exn.message "Exception: "⟩
  · intro l hl
    simp [hl]

/-- Claim C3 witness: a concrete raising run returns only logs, with the
traceback recorded. -/
theorem C3_witness :
    invalid_brand_metadata cfgGCS = false
    ∧ pyTruthy cfgGCS.video_uris = true
    ∧ (analyse (buildK cfgGCS) (orchRaise ["partial\n"] exnBoom) ()).result.error
      = none :=
  ⟨by decide, by decide,
    (C3_wrapper_contains_exception (buildK cfgGCS)
      (orchRaise ["partial\n"] exnBoom) () ["partial\n"] exnBoom
      (by decide) (by decide) rfl).1⟩

/-- Claim C4: when the built configuration's brand metadata is entirely
empty (`invalid_brand_metadata` returns `true`), `analyse` returns the
`{error, logs}` result without invoking the orchestrator or any external
collaborator — the outcome is identical for any two orchestrator
behaviours — and the invalid-metadata message itself is in the returned
logs. -/
theorem C4_invalid_metadata_short_circuits {A : Type}
    (build : A → Configuration) (orch orch' : Configuration → OrchOutcome)
    (a : A) (hmeta : invalid_brand_metadata (build a) = true) :
    analyse build orch a = analyse build orch' a
    ∧ (analyse build orch a).result.error = some "Invalid brand metadata"
    ∧ "Invalid brand metadata. Please provide brand details.\n"
        ∈ (analyse build orch a).result.logs := by
  refine ⟨?_, ?_, ?_⟩ <;> simp [analyse, hmeta]

/-- Claim C4 witness: with entirely empty brand metadata, a normally
returning orchestrator and a raising one give the same result. -/
theorem C4_witness :
    invalid_brand_metadata cfgNoBrand = true
    ∧ analyse (buildK cfgNoBrand) (orchOk ["x\n"]) ()
      = analyse (buildK cfgNoBrand) (orchRaise ["y\n"] exnBoom) () :=
  ⟨by decide,
    (C4_invalid_metadata_short_circuits (buildK cfgNoBrand) (orchOk ["x\n"])
      (orchRaise ["y\n"] exnBoom) () (by decide)).1⟩

/-- Claim C10: when the built configuration has valid brand metadata but a
falsy `video_uris` (such as `None` when the request body omits `video_url`,
or an empty list), the orchestrator is never invoked — the outcome is
identical for any two orchestrator behaviours — and `analyse` returns a
result with no `error` key whose transcript includes the
no-videos message. -/
theorem C10_no_videos_short_circuits {A : Type}
    (build : A → Configuration) (orch orch' : Configuration → OrchOutcome)
    (a : A)
    (hmeta : invalid_brand_metadata (build a) = false)
    (hvids : pyTruthy (build a).video_uris = false) :
    analyse build orch a = analyse build orch' a
    ∧ (analyse build orch a).result.error = none
    ∧ "There are no videos to process.\n" ∈ (analyse build orch a).result.logs := by
  refine ⟨?_, ?_, ?_⟩ <;> simp [analyse, hmeta, hvids]

/-- Claim C10 witness: a configuration whose `video_uris` is `None` skips
the orchestrator and logs the no-videos message. -/
theorem C10_witness :
    invalid_brand_metadata cfgNoVideos = false
    ∧ pyTruthy cfgNoVideos.video_uris = false
    ∧ "There are no videos to process.\n"
      ∈ (analyse (buildK cfgNoVideos) (orchOk ["x\n"]) ()).result.logs :=
  ⟨by decide, by decide,
    (C10_no_videos_short_circuits (buildK cfgNoVideos) (orchOk ["x\n"])
      (orchRaise ["y\n"] exnBoom) () (by decide) (by decide)).2.2⟩

end ABCD
